import Mathlib

/-!
# Verification of the A/B testing simulation engine

Shallow embedding of `scripts/ab_testing_simulation.py`: the variant
catalog, the conversion-probability model, the behavioral metric
synthesis, session generation and summary aggregation, together with
theorems settling the specification claims.

Numeric values are modelled over `ℚ`; machine randomness (the seeded
`random` / `numpy` / `Faker` streams) is modelled as an explicit stream
of per-user draw records, and the unseeded `uuid.uuid4()` source as a
separate stream of identifier strings.
-/

namespace ABSim

/-- One variant of a test: display name and description
(`generate_test_variants` inner dicts). -/
structure VariantInfo where
  name : String
  vdescription : String
  deriving DecidableEq, Repr

/-- One A/B test: id, display name, ordered variant mapping
(`generate_test_variants` entries). -/
structure TestInfo where
  test_id : String
  test_name : String
  variants : List (String × VariantInfo)
  deriving DecidableEq, Repr

/-- `ABTestSimulator.generate_test_variants`: the static catalog of the
four tests and their variants, in source order. -/
def generate_test_variants : List (String × TestInfo) :=
  [ ("icon_design_test",
      { test_id := "icon_design_001"
        test_name := "App Icon Design Test"
        variants :=
          [ ("control", ⟨"Original Icon", "Current app icon design"⟩),
            ("variant_a", ⟨"Minimalist Icon", "Clean, minimalist icon design"⟩),
            ("variant_b", ⟨"Colorful Icon", "Bright, colorful icon design"⟩) ] }),
    ("description_test",
      { test_id := "description_002"
        test_name := "App Description Length Test"
        variants :=
          [ ("control", ⟨"Short Description", "Concise app description (50-100 words)"⟩),
            ("variant_a", ⟨"Detailed Description", "Comprehensive app description (200-300 words)"⟩) ] }),
    ("pricing_test",
      { test_id := "pricing_003"
        test_name := "Pricing Strategy Test"
        variants :=
          [ ("control", ⟨"Free", "Completely free app"⟩),
            ("variant_a", ⟨"Freemium", "Free with in-app purchases"⟩),
            ("variant_b", ⟨"Paid", "One-time purchase ($2.99)"⟩) ] }),
    ("screenshots_test",
      { test_id := "screenshots_004"
        test_name := "Screenshot Count Test"
        variants :=
          [ ("control", ⟨"3 Screenshots", "App store listing with 3 screenshots"⟩),
            ("variant_a", ⟨"5 Screenshots", "App store listing with 5 screenshots"⟩) ] }) ]

/-- The variant keys of one test of the catalog
(`list(test_info['variants'].keys())` in `generate_user_sessions`). -/
def testVariantKeys (test_key : String) : List String :=
  ((generate_test_variants.lookup test_key).map
    (fun t => t.variants.map Prod.fst)).getD []

/-- The per-user variant assignment dict `user_tests`, flattened: one
variant key per test of the catalog. -/
structure UserTests where
  icon_design_test : String
  description_test : String
  pricing_test : String
  screenshots_test : String
  deriving DecidableEq, Repr

/-- `dict.get(key, default)` on a weight table. -/
def dictGetD (tbl : List (String × ℚ)) (key : String) (dflt : ℚ) : ℚ :=
  (tbl.lookup key).getD dflt

/-- The `age_multipliers` dict of `calculate_conversion_probability`. -/
def age_multipliers : List (String × ℚ) :=
  [("18-24", 1.2), ("25-34", 1.1), ("35-44", 1.0), ("45-54", 0.9), ("55+", 0.8)]

/-- The `device_multipliers` dict of `calculate_conversion_probability`. -/
def device_multipliers : List (String × ℚ) :=
  [("iPhone", 1.0), ("iPad", 0.9), ("Apple Watch", 0.7), ("Mac", 0.6)]

/-- `ABTestSimulator.calculate_conversion_probability`, translated
statement by statement: additive variant deltas on the base rate,
then the age multiplier, then the device multiplier, then the final
clamp `min(0.95, max(0.01, base_prob))`. -/
def calculate_conversion_probability (user_tests : UserTests)
    (age_group device_type : String) : ℚ :=
  let base_prob : ℚ := 0.15
  let base_prob :=
    if user_tests.icon_design_test = "variant_a" then base_prob + 0.02
    else if user_tests.icon_design_test = "variant_b" then base_prob + 0.035
    else base_prob
  let base_prob :=
    if user_tests.description_test = "variant_a" then base_prob + 0.025
    else base_prob
  let base_prob :=
    if user_tests.pricing_test = "control" then base_prob + 0.08
    else if user_tests.pricing_test = "variant_a" then base_prob + 0.04
    else base_prob
  let base_prob :=
    if user_tests.screenshots_test = "variant_a" then base_prob + 0.015
    else base_prob
  let base_prob := base_prob * dictGetD age_multipliers age_group 1.0
  let base_prob := base_prob * dictGetD device_multipliers device_type 1.0
  min 0.95 (max 0.01 base_prob)

/-! ## Random primitives

The simulation consumes library samplers (`random`, `numpy.random`,
`Faker`). Each is modelled by its interface contract: the underlying
seeded stream supplies a raw draw, and the sampler maps it into the
sampler's range. A fixed seed fixes the stream, so determinism of the
engine reduces to determinism in the stream argument. -/

/-- `random.choices(population, weights)[0]` and `random.choice(seq)`:
returns one element of the population, selected by the raw draw
(weights shift the distribution, never the support). -/
def pyChoice (population : List String) (draw : ℕ) : String :=
  population.getD (draw % population.length) ""

/-- Python `random.randint(lo, hi)`: an integer in `[lo, hi]`, both ends
inclusive, selected by the raw draw. -/
def pyRandint (lo hi : ℤ) (draw : ℕ) : ℤ :=
  lo + (draw % (hi - lo + 1).toNat : ℕ)

/-- Python `random.uniform(a, b)`: `a + (b - a) * t` for a raw draw
`t ∈ [0, 1]`. -/
def pyUniform (a b t : ℚ) : ℚ :=
  a + (b - a) * t

/-- `np.random.normal(mean, sd)`: `mean + sd * z` for a standard-normal
raw draw `z`. -/
def npNormal (mean sd z : ℚ) : ℚ :=
  mean + sd * z

/-- Python `int(x)`: truncation toward zero. -/
def pyInt (q : ℚ) : ℤ :=
  if 0 ≤ q then ⌊q⌋ else ⌈q⌉

/-- Round-half-to-even to an integer, the tie rule of Python `round`. -/
def roundHalfEven (q : ℚ) : ℤ :=
  if q - ⌊q⌋ < 1/2 then ⌊q⌋
  else if 1/2 < q - ⌊q⌋ then ⌊q⌋ + 1
  else if ⌊q⌋ % 2 = 0 then ⌊q⌋ else ⌊q⌋ + 1

/-- Python `round(x, 1)`: round to one decimal place, ties to even. -/
def pyRound1 (q : ℚ) : ℚ :=
  (roundHalfEven (10 * q) : ℚ) / 10

/-- The raw draws the seeded generators hand to one user's iteration of
`generate_user_sessions`, in source order. Two runs with the same seed
see the same stream of these records. -/
structure UserDraws where
  date_draw : ℚ
  age_draw : ℕ
  device_draw : ℕ
  country_draw : ℕ
  genre_draw : ℕ
  company_draw : String
  word_draw : String
  icon_draw : ℕ
  desc_draw : ℕ
  pricing_draw : ℕ
  screenshots_draw : ℕ
  conv_draw : ℚ
  desc_bonus_draw : ℕ
  ss_bonus_draw : ℕ
  noise_draw : ℚ
  icon_rating_draw : ℚ
  pricing_rating_draw : ℚ
  rating_noise_draw : ℚ
  deriving Repr

/-- One row of the `sessions` list of `generate_user_sessions`
(timestamps as rationals, `rating` optional exactly as the Python
`None`). -/
structure SessionRecord where
  user_id : String
  session_date : ℚ
  app_name : String
  app_genre : String
  age_group : String
  device_type : String
  country : String
  icon_design_variant : String
  description_variant : String
  pricing_variant : String
  screenshots_variant : String
  time_spent_seconds : ℤ
  converted : Bool
  rating : Option ℚ
  deriving DecidableEq, Repr

/-- Record identity plus the session id drawn at append time. -/
structure SessionRow where
  record : SessionRecord
  session_id : String
  deriving DecidableEq, Repr

/-- `app_genres` list of `ABTestSimulator.__init__`. -/
def app_genres : List String :=
  ["Games", "Entertainment", "Education", "Photo & Video",
   "Music", "Social Networking", "Shopping", "Productivity",
   "Finance", "Sports", "Food & Drink", "Travel", "News",
   "Health & Fitness", "Utilities", "Weather", "Reference"]

/-- `device_types` list of `ABTestSimulator.__init__`. -/
def device_types : List String :=
  ["iPhone", "iPad", "Apple Watch", "Mac"]

/-- `countries` list of `ABTestSimulator.__init__`. -/
def countries : List String :=
  ["US", "UK", "CA", "AU", "DE", "FR", "JP", "IN", "BR", "MX"]

/-- The age-group population of the `random.choices` call in
`generate_user_sessions`. -/
def age_groups : List String :=
  ["18-24", "25-34", "35-44", "45-54", "55+"]

/-- The `user_tests` dict built in the loop body of
`generate_user_sessions`: one `random.choice` over each test's variant
keys. -/
def sessionUserTests (d : UserDraws) : UserTests :=
  { icon_design_test := pyChoice (testVariantKeys "icon_design_test") d.icon_draw
    description_test := pyChoice (testVariantKeys "description_test") d.desc_draw
    pricing_test := pyChoice (testVariantKeys "pricing_test") d.pricing_draw
    screenshots_test := pyChoice (testVariantKeys "screenshots_test") d.screenshots_draw }

/-- The `conversion_probability` value of the loop body. -/
def sessionConversionProb (d : UserDraws) : ℚ :=
  calculate_conversion_probability (sessionUserTests d)
    (pyChoice age_groups d.age_draw) (pyChoice device_types d.device_draw)

/-- `converted = random.random() < conversion_probability`. -/
def sessionConverted (d : UserDraws) : Bool :=
  d.conv_draw < sessionConversionProb d

/-- `base_time` of the loop body: 45, plus `randint(10, 30)` for the
detailed description, plus `randint(5, 20)` for the extra
screenshots. -/
def sessionBaseTime (ut : UserTests) (d : UserDraws) : ℤ :=
  let base_time : ℤ := 45
  let base_time :=
    if ut.description_test = "variant_a" then
      base_time + pyRandint 10 30 d.desc_bonus_draw
    else base_time
  if ut.screenshots_test = "variant_a" then
    base_time + pyRandint 5 20 d.ss_bonus_draw
  else base_time

/-- `time_spent = max(5, int(np.random.normal(base_time, 15)))`. -/
def sessionTimeSpent (ut : UserTests) (d : UserDraws) : ℤ :=
  max 5 (pyInt (npNormal (sessionBaseTime ut d) 15 d.noise_draw))

/-- `base_rating` of the rating branch: 4.0, plus `uniform(-0.2, 0.4)`
for a non-control icon, plus `uniform(-0.3, 0.1)` for free pricing. -/
def sessionBaseRating (ut : UserTests) (d : UserDraws) : ℚ :=
  let base_rating : ℚ := 4.0
  let base_rating :=
    if ut.icon_design_test = "variant_a" ∨ ut.icon_design_test = "variant_b" then
      base_rating + pyUniform (-0.2) 0.4 d.icon_rating_draw
    else base_rating
  if ut.pricing_test = "control" then
    base_rating + pyUniform (-0.3) 0.1 d.pricing_rating_draw
  else base_rating

/-- The `rating` of the loop body: clamped, rounded satisfaction when
converted, the Python `None` otherwise. -/
def sessionRating (ut : UserTests) (conv : Bool) (d : UserDraws) : Option ℚ :=
  if conv then
    some (pyRound1 (min 5.0 (max 1.0
      (sessionBaseRating ut d + pyUniform (-1.0) 1.0 d.rating_noise_draw))))
  else none

/-- The body of the `for` loop of `generate_user_sessions` for one
user: demographics, variant assignment, conversion draw, time spent,
conditional rating, assembled record. `user_id` and `session_id` come
from the unseeded `uuid.uuid4()` source, everything else from the
seeded draw record. -/
def generate_one_session (uid sid : String) (d : UserDraws) : SessionRow :=
  { record :=
      { user_id := uid
        session_date := d.date_draw
        app_name := d.company_draw ++ " " ++ d.word_draw
        app_genre := pyChoice app_genres d.genre_draw
        age_group := pyChoice age_groups d.age_draw
        device_type := pyChoice device_types d.device_draw
        country := pyChoice countries d.country_draw
        icon_design_variant := (sessionUserTests d).icon_design_test
        description_variant := (sessionUserTests d).description_test
        pricing_variant := (sessionUserTests d).pricing_test
        screenshots_variant := (sessionUserTests d).screenshots_test
        time_spent_seconds := sessionTimeSpent (sessionUserTests d) d
        converted := sessionConverted d
        rating := sessionRating (sessionUserTests d) (sessionConverted d) d }
    session_id := sid }

/-- `ABTestSimulator.generate_user_sessions`: `for _ in
range(self.num_users)` append one assembled session. `num_users` is an
integer as in Python; `range` of a non-positive bound is empty.
`uuids i` supplies the two `uuid.uuid4()` strings of iteration `i`,
`draws i` the seeded draws of iteration `i`. -/
def generate_user_sessions (num_users : ℤ)
    (uuids : ℕ → String × String) (draws : ℕ → UserDraws) :
    List SessionRow :=
  (List.range num_users.toNat).map
    (fun i => generate_one_session (uuids i).1 (uuids i).2 (draws i))

/-! ## Summary aggregation

`ABTestSimulator.generate_summary_statistics` issues, per test, one SQL
`GROUP BY variant_column` aggregate over the session rows. The SQL
semantics embedded here: one output row per variant value present in
the data; `COUNT(*)`; `SUM(CASE WHEN converted THEN 1 ELSE 0 END)`;
`AVG` of the conversion indicator; `AVG(time_spent_seconds)`;
`AVG(rating)` ignoring SQL `NULL`s and returning `NULL` when every
rating of the group is `NULL`. -/

/-- One row of `ab_test_summary`. -/
structure SummaryRow where
  test_name : String
  variant_key : String
  total_users : ℕ
  conversions : ℕ
  conversion_rate : ℚ
  avg_time_spent : ℚ
  avg_rating : Option ℚ
  deriving DecidableEq, Repr

/-- The `tests` list of `generate_summary_statistics`: test display name
paired with the session column holding that test's variant. -/
def summary_tests : List (String × (SessionRecord → String)) :=
  [ ("App Icon Design Test", SessionRecord.icon_design_variant),
    ("App Description Length Test", SessionRecord.description_variant),
    ("Pricing Strategy Test", SessionRecord.pricing_variant),
    ("Screenshot Count Test", SessionRecord.screenshots_variant) ]

/-- The aggregate `SELECT` of `generate_summary_statistics` for one
group: `COUNT`, conversion sum and rate, mean time, `AVG(rating)`. -/
def summaryRowFor (test_name : String) (col : SessionRecord → String)
    (recs : List SessionRecord) (k : String) : SummaryRow :=
  let grp := recs.filter (fun s => col s = k)
  let rated := grp.filterMap SessionRecord.rating
  { test_name := test_name
    variant_key := k
    total_users := grp.length
    conversions := (grp.filter (fun s => s.converted)).length
    conversion_rate := ((grp.filter (fun s => s.converted)).length : ℚ) / grp.length
    avg_time_spent := ((grp.map (fun s => s.time_spent_seconds)).sum : ℚ) / grp.length
    avg_rating :=
      if rated.length = 0 then none
      else some (rated.sum / rated.length) }

/-- One test's `INSERT ... SELECT ... GROUP BY variant_column` of
`generate_summary_statistics`: one row per variant value present in the
stored sessions. -/
def groupSummary (test_name : String) (col : SessionRecord → String)
    (recs : List SessionRecord) : List SummaryRow :=
  ((recs.map col).dedup).map (summaryRowFor test_name col recs)

/-- `ABTestSimulator.generate_summary_statistics`: the four per-test
aggregates, concatenated. -/
def generate_summary_statistics (recs : List SessionRecord) : List SummaryRow :=
  summary_tests.flatMap (fun p => groupSummary p.1 p.2 recs)

/-! ## Decomposition of the probability model

Spec-side (§4.3) phrasing of `calculate_conversion_probability`: a sum
of per-test additive deltas, then the age multiplier, then the device
multiplier, then one clamp. Proved equal to the source translation. -/

/-- §4.3: the additive delta of the icon test, keyed by variant. -/
def iconDelta (v : String) : ℚ :=
  if v = "variant_a" then 0.02 else if v = "variant_b" then 0.035 else 0

/-- §4.3: the additive delta of the description test. -/
def descriptionDelta (v : String) : ℚ :=
  if v = "variant_a" then 0.025 else 0

/-- §4.3: the additive delta of the pricing test (the paid variant
intentionally gets none). -/
def pricingDelta (v : String) : ℚ :=
  if v = "control" then 0.08 else if v = "variant_a" then 0.04 else 0

/-- §4.3: the additive delta of the screenshot test. -/
def screenshotsDelta (v : String) : ℚ :=
  if v = "variant_a" then 0.015 else 0

/-- §4.3: base rate plus all additive variant deltas. -/
def additiveScore (ut : UserTests) : ℚ :=
  0.15 + iconDelta ut.icon_design_test + descriptionDelta ut.description_test
    + pricingDelta ut.pricing_test + screenshotsDelta ut.screenshots_test

/-- The age-bracket multiplier, neutral `1.0` off the known table. -/
def ageFactor (a : String) : ℚ := dictGetD age_multipliers a 1.0

/-- The device-category multiplier, neutral `1.0` off the known table. -/
def deviceFactor (d : String) : ℚ := dictGetD device_multipliers d 1.0

/-- The probability before the final clamp: additive effects first,
then the two multiplicative demographic factors. -/
def preClampProb (ut : UserTests) (a d : String) : ℚ :=
  additiveScore ut * ageFactor a * deviceFactor d

/-- The final clamp of §4.3 to `[0.01, 0.95]`. -/
def clampProb (p : ℚ) : ℚ := min 0.95 (max 0.01 p)

lemma calc_eq_clamp_preClamp (ut : UserTests) (a d : String) :
    calculate_conversion_probability ut a d = clampProb (preClampProb ut a d) := by
  simp only [calculate_conversion_probability, clampProb, preClampProb, additiveScore,
    iconDelta, descriptionDelta, pricingDelta, screenshotsDelta, ageFactor, deviceFactor]
  split_ifs <;> ring_nf

lemma clampProb_mem (p : ℚ) : 0.01 ≤ clampProb p ∧ clampProb p ≤ 0.95 := by
  refine ⟨le_min (by norm_num) (le_max_left _ _), min_le_left _ _⟩

lemma clampProb_of_mem {p : ℚ} (h1 : 0.01 ≤ p) (h2 : p ≤ 0.95) : clampProb p = p := by
  rw [clampProb, max_eq_right h1, min_eq_right h2]

lemma iconKeys_eq :
    testVariantKeys "icon_design_test" = ["control", "variant_a", "variant_b"] := by
  rfl

lemma descKeys_eq :
    testVariantKeys "description_test" = ["control", "variant_a"] := by
  rfl

lemma pricingKeys_eq :
    testVariantKeys "pricing_test" = ["control", "variant_a", "variant_b"] := by
  rfl

lemma ssKeys_eq :
    testVariantKeys "screenshots_test" = ["control", "variant_a"] := by
  rfl

lemma iconDelta_bounds {v : String} (h : v ∈ testVariantKeys "icon_design_test") :
    0 ≤ iconDelta v ∧ iconDelta v ≤ 0.035 := by
  rw [iconKeys_eq] at h
  simp only [List.mem_cons, List.not_mem_nil, or_false] at h
  rcases h with h | h | h <;> subst h
  · rw [show iconDelta "control" = 0 from rfl]; norm_num
  · rw [show iconDelta "variant_a" = 0.02 from rfl]; norm_num
  · rw [show iconDelta "variant_b" = 0.035 from rfl]; norm_num

lemma descriptionDelta_bounds {v : String} (h : v ∈ testVariantKeys "description_test") :
    0 ≤ descriptionDelta v ∧ descriptionDelta v ≤ 0.025 := by
  rw [descKeys_eq] at h
  simp only [List.mem_cons, List.not_mem_nil, or_false] at h
  rcases h with h | h <;> subst h
  · rw [show descriptionDelta "control" = 0 from rfl]; norm_num
  · rw [show descriptionDelta "variant_a" = 0.025 from rfl]; norm_num

lemma pricingDelta_bounds {v : String} (h : v ∈ testVariantKeys "pricing_test") :
    0 ≤ pricingDelta v ∧ pricingDelta v ≤ 0.08 := by
  rw [pricingKeys_eq] at h
  simp only [List.mem_cons, List.not_mem_nil, or_false] at h
  rcases h with h | h | h <;> subst h
  · rw [show pricingDelta "control" = 0.08 from rfl]; norm_num
  · rw [show pricingDelta "variant_a" = 0.04 from rfl]; norm_num
  · rw [show pricingDelta "variant_b" = 0 from rfl]; norm_num

lemma screenshotsDelta_bounds {v : String} (h : v ∈ testVariantKeys "screenshots_test") :
    0 ≤ screenshotsDelta v ∧ screenshotsDelta v ≤ 0.015 := by
  rw [ssKeys_eq] at h
  simp only [List.mem_cons, List.not_mem_nil, or_false] at h
  rcases h with h | h <;> subst h
  · rw [show screenshotsDelta "control" = 0 from rfl]; norm_num
  · rw [show screenshotsDelta "variant_a" = 0.015 from rfl]; norm_num

lemma ageFactor_bounds {a : String} (h : a ∈ age_groups) :
    0.8 ≤ ageFactor a ∧ ageFactor a ≤ 1.2 := by
  simp only [age_groups, List.mem_cons, List.not_mem_nil, or_false] at h
  rcases h with h | h | h | h | h <;> subst h
  · rw [show ageFactor "18-24" = 1.2 from rfl]; norm_num
  · rw [show ageFactor "25-34" = 1.1 from rfl]; norm_num
  · rw [show ageFactor "35-44" = 1.0 from rfl]; norm_num
  · rw [show ageFactor "45-54" = 0.9 from rfl]; norm_num
  · rw [show ageFactor "55+" = 0.8 from rfl]; norm_num

lemma deviceFactor_bounds {d : String} (h : d ∈ device_types) :
    0.6 ≤ deviceFactor d ∧ deviceFactor d ≤ 1 := by
  simp only [device_types, List.mem_cons, List.not_mem_nil, or_false] at h
  rcases h with h | h | h | h <;> subst h
  · rw [show deviceFactor "iPhone" = 1.0 from rfl]; norm_num
  · rw [show deviceFactor "iPad" = 0.9 from rfl]; norm_num
  · rw [show deviceFactor "Apple Watch" = 0.7 from rfl]; norm_num
  · rw [show deviceFactor "Mac" = 0.6 from rfl]; norm_num

lemma additiveScore_bounds {ut : UserTests}
    (hi : ut.icon_design_test ∈ testVariantKeys "icon_design_test")
    (hd : ut.description_test ∈ testVariantKeys "description_test")
    (hp : ut.pricing_test ∈ testVariantKeys "pricing_test")
    (hs : ut.screenshots_test ∈ testVariantKeys "screenshots_test") :
    0.15 ≤ additiveScore ut ∧ additiveScore ut ≤ 0.305 := by
  obtain ⟨h1, h2⟩ := iconDelta_bounds hi
  obtain ⟨h3, h4⟩ := descriptionDelta_bounds hd
  obtain ⟨h5, h6⟩ := pricingDelta_bounds hp
  obtain ⟨h7, h8⟩ := screenshotsDelta_bounds hs
  rw [additiveScore]
  constructor <;> linarith

lemma preClampProb_bounds {ut : UserTests} {a d : String}
    (hi : ut.icon_design_test ∈ testVariantKeys "icon_design_test")
    (hd : ut.description_test ∈ testVariantKeys "description_test")
    (hp : ut.pricing_test ∈ testVariantKeys "pricing_test")
    (hs : ut.screenshots_test ∈ testVariantKeys "screenshots_test")
    (ha : a ∈ age_groups) (hdev : d ∈ device_types) :
    72/1000 ≤ preClampProb ut a d ∧ preClampProb ut a d ≤ 366/1000 := by
  obtain ⟨hS1, hS2⟩ := additiveScore_bounds hi hd hp hs
  obtain ⟨hA1, hA2⟩ := ageFactor_bounds ha
  obtain ⟨hD1, hD2⟩ := deviceFactor_bounds hdev
  rw [preClampProb]
  have hSA1 : (0.15 : ℚ) * 0.8 ≤ additiveScore ut * ageFactor a :=
    mul_le_mul hS1 hA1 (by norm_num) (by linarith)
  have hSA2 : additiveScore ut * ageFactor a ≤ 0.305 * 1.2 :=
    mul_le_mul hS2 hA2 (by linarith) (by norm_num)
  constructor
  · calc (72/1000 : ℚ) = (0.15 * 0.8) * 0.6 := by norm_num
    _ ≤ (additiveScore ut * ageFactor a) * deviceFactor d :=
        mul_le_mul hSA1 hD1 (by norm_num) (by linarith)
  · calc (additiveScore ut * ageFactor a) * deviceFactor d ≤ (0.305 * 1.2) * 1 :=
        mul_le_mul hSA2 hD2 (by linarith) (by norm_num)
    _ = 366/1000 := by norm_num

lemma ageFactor_of_unknown {a : String} (h : a ∉ age_groups) : ageFactor a = 1 := by
  simp only [age_groups, List.mem_cons, List.not_mem_nil, or_false, not_or] at h
  obtain ⟨h1, h2, h3, h4, h5⟩ := h
  have e1 : (a == "18-24") = false := beq_eq_false_iff_ne.mpr h1
  have e2 : (a == "25-34") = false := beq_eq_false_iff_ne.mpr h2
  have e3 : (a == "35-44") = false := beq_eq_false_iff_ne.mpr h3
  have e4 : (a == "45-54") = false := beq_eq_false_iff_ne.mpr h4
  have e5 : (a == "55+") = false := beq_eq_false_iff_ne.mpr h5
  simp [ageFactor, dictGetD, age_multipliers, List.lookup, e1, e2, e3, e4, e5]
  norm_num

lemma deviceFactor_of_unknown {d : String} (h : d ∉ device_types) : deviceFactor d = 1 := by
  simp only [device_types, List.mem_cons, List.not_mem_nil, or_false, not_or] at h
  obtain ⟨h1, h2, h3, h4⟩ := h
  have e1 : (d == "iPhone") = false := beq_eq_false_iff_ne.mpr h1
  have e2 : (d == "iPad") = false := beq_eq_false_iff_ne.mpr h2
  have e3 : (d == "Apple Watch") = false := beq_eq_false_iff_ne.mpr h3
  have e4 : (d == "Mac") = false := beq_eq_false_iff_ne.mpr h4
  simp [deviceFactor, dictGetD, device_multipliers, List.lookup, e1, e2, e3, e4]
  norm_num

/-- C3: for every variant assignment and every age-group and device-type
string (known or not), the conversion probability lies in the closed
interval `[0.01, 0.95]`. -/
theorem conversion_probability_always_in_bounds (ut : UserTests) (a d : String) :
    0.01 ≤ calculate_conversion_probability ut a d ∧
    calculate_conversion_probability ut a d ≤ 0.95 := by
  rw [calc_eq_clamp_preClamp]
  exact clampProb_mem _

/-- C5: the conversion probability is exactly the clamp of (base rate
plus per-test additive deltas) times the age factor times the device
factor — additive first, one multiplication each, a single final clamp —
and the function is total: age-group or device-type values outside the
known tables contribute a neutral factor `1.0`. -/
theorem conversion_probability_order_and_totality (ut : UserTests) (a d : String) :
    calculate_conversion_probability ut a d
      = clampProb ((0.15 + iconDelta ut.icon_design_test
          + descriptionDelta ut.description_test
          + pricingDelta ut.pricing_test
          + screenshotsDelta ut.screenshots_test)
        * ageFactor a * deviceFactor d)
    ∧ (a ∉ age_groups → ageFactor a = 1)
    ∧ (d ∉ device_types → deviceFactor d = 1) := by
  refine ⟨calc_eq_clamp_preClamp ut a d, fun h => ageFactor_of_unknown h,
    fun h => deviceFactor_of_unknown h⟩

/-- Witness for C5 at a concrete assignment with demographic values
outside both known tables. -/
theorem conversion_probability_order_and_totality_witness :
    calculate_conversion_probability ⟨"control", "control", "control", "control"⟩
        "unknown-age" "toaster"
      = clampProb ((0.15 + iconDelta "control" + descriptionDelta "control"
          + pricingDelta "control" + screenshotsDelta "control")
        * ageFactor "unknown-age" * deviceFactor "toaster")
    ∧ ("unknown-age" ∉ age_groups → ageFactor "unknown-age" = 1)
    ∧ ("toaster" ∉ device_types → deviceFactor "toaster" = 1) :=
  conversion_probability_order_and_totality
    ⟨"control", "control", "control", "control"⟩ "unknown-age" "toaster"

/-- C10: over the reachable space — variants from the shipped catalog,
the five known age groups, the four known device types — the pre-clamp
probability already lies in `[0.072, 0.366]`, so the final clamp is the
identity and the boundary values `0.01` and `0.95` are never attained. -/
theorem conversion_probability_clamp_identity_on_reachable
    (ut : UserTests) (a d : String)
    (hi : ut.icon_design_test ∈ testVariantKeys "icon_design_test")
    (hd : ut.description_test ∈ testVariantKeys "description_test")
    (hp : ut.pricing_test ∈ testVariantKeys "pricing_test")
    (hs : ut.screenshots_test ∈ testVariantKeys "screenshots_test")
    (ha : a ∈ age_groups) (hdev : d ∈ device_types) :
    72/1000 ≤ preClampProb ut a d ∧ preClampProb ut a d ≤ 366/1000 ∧
    calculate_conversion_probability ut a d = preClampProb ut a d ∧
    calculate_conversion_probability ut a d ≠ 0.01 ∧
    calculate_conversion_probability ut a d ≠ 0.95 := by
  obtain ⟨h1, h2⟩ := preClampProb_bounds hi hd hp hs ha hdev
  have heq : calculate_conversion_probability ut a d = preClampProb ut a d := by
    rw [calc_eq_clamp_preClamp]
    exact clampProb_of_mem (by linarith) (by linarith)
  exact ⟨h1, h2, heq, by rw [heq]; intro hc; rw [hc] at h1; norm_num at h1,
    by rw [heq]; intro hc; rw [hc] at h2; norm_num at h2⟩

/-- Witness for C10 at the maximal reachable combination. -/
theorem conversion_probability_clamp_identity_witness :
    ((⟨"variant_b", "variant_a", "control", "variant_a"⟩ : UserTests).icon_design_test
        ∈ testVariantKeys "icon_design_test") ∧
    (72/1000 ≤ preClampProb ⟨"variant_b", "variant_a", "control", "variant_a"⟩
        "18-24" "iPhone" ∧
      preClampProb ⟨"variant_b", "variant_a", "control", "variant_a"⟩
        "18-24" "iPhone" ≤ 366/1000 ∧
      calculate_conversion_probability ⟨"variant_b", "variant_a", "control", "variant_a"⟩
        "18-24" "iPhone"
        = preClampProb ⟨"variant_b", "variant_a", "control", "variant_a"⟩
          "18-24" "iPhone" ∧
      calculate_conversion_probability ⟨"variant_b", "variant_a", "control", "variant_a"⟩
        "18-24" "iPhone" ≠ 0.01 ∧
      calculate_conversion_probability ⟨"variant_b", "variant_a", "control", "variant_a"⟩
        "18-24" "iPhone" ≠ 0.95) :=
  ⟨by rw [iconKeys_eq]; decide,
    conversion_probability_clamp_identity_on_reachable
      ⟨"variant_b", "variant_a", "control", "variant_a"⟩ "18-24" "iPhone"
      (by rw [iconKeys_eq]; decide) (by rw [descKeys_eq]; decide)
      (by rw [pricingKeys_eq]; decide) (by rw [ssKeys_eq]; decide)
      (by decide) (by decide)⟩

/-! ## Rounding bounds -/

lemma roundHalfEven_bounds (q : ℚ) :
    ⌊q⌋ ≤ roundHalfEven q ∧ roundHalfEven q ≤ ⌈q⌉ := by
  have hceil : ∀ h : ¬ q - ⌊q⌋ < 1/2, ⌊q⌋ + 1 ≤ ⌈q⌉ := by
    intro h
    push_neg at h
    have hq : (⌊q⌋ : ℚ) < q := by linarith
    have := Int.lt_ceil.mpr hq
    omega
  rw [roundHalfEven]
  split_ifs with h1 h2 h3
  · exact ⟨le_refl _, Int.floor_le_ceil q⟩
  · exact ⟨by omega, hceil h1⟩
  · exact ⟨le_refl _, Int.floor_le_ceil q⟩
  · exact ⟨by omega, hceil h1⟩

lemma pyRound1_bounds {q : ℚ} (h1 : 1 ≤ q) (h5 : q ≤ 5) :
    1 ≤ pyRound1 q ∧ pyRound1 q ≤ 5 := by
  obtain ⟨hl, hu⟩ := roundHalfEven_bounds (10 * q)
  have hfl : (10 : ℤ) ≤ ⌊10 * q⌋ := by
    apply Int.le_floor.mpr
    push_cast
    linarith
  have hcu : ⌈10 * q⌉ ≤ (50 : ℤ) := by
    apply Int.ceil_le.mpr
    push_cast
    linarith
  have hlo : (10 : ℚ) ≤ (roundHalfEven (10 * q) : ℚ) := by exact_mod_cast le_trans hfl hl
  have hhi : ((roundHalfEven (10 * q)) : ℚ) ≤ 50 := by exact_mod_cast le_trans hu hcu
  rw [pyRound1]
  constructor
  · rw [le_div_iff₀ (by norm_num : (0:ℚ) < 10)]
    linarith
  · rw [div_le_iff₀ (by norm_num : (0:ℚ) < 10)]
    linarith

/-! ## Concrete streams for witnesses -/

/-- An all-zero seeded draw record. -/
def zeroDraws : UserDraws :=
  { date_draw := 0, age_draw := 0, device_draw := 0, country_draw := 0
    genre_draw := 0, company_draw := "Acme", word_draw := "App"
    icon_draw := 0, desc_draw := 0, pricing_draw := 0, screenshots_draw := 0
    conv_draw := 0, desc_bonus_draw := 0, ss_bonus_draw := 0, noise_draw := 0
    icon_rating_draw := 0, pricing_rating_draw := 0, rating_noise_draw := 0 }

/-- A constant seeded stream. -/
def constDraws : ℕ → UserDraws := fun _ => zeroDraws

/-- A constant identifier stream. -/
def constUUIDs : ℕ → String × String := fun _ => ("user-0", "session-0")

/-- A second identifier stream, as produced by another run's unseeded
`uuid.uuid4()` calls. -/
def otherUUIDs : ℕ → String × String := fun _ => ("user-1", "session-1")

/-! ## Session generation claims -/

/-- C7: for every non-negative population size `n`, session generation
returns exactly `n` records, and `n = 0` returns the empty sequence (the
generator itself performs no sink call for any `n`; persistence is a
separate, later hand-off). -/
theorem generation_returns_exactly_n (n : ℤ) (h : 0 ≤ n)
    (uuids : ℕ → String × String) (draws : ℕ → UserDraws) :
    ((generate_user_sessions n uuids draws).length : ℤ) = n ∧
    (n = 0 → generate_user_sessions n uuids draws = []) := by
  constructor
  · simp only [generate_user_sessions, List.length_map, List.length_range]
    omega
  · intro h0
    subst h0
    rfl

/-- Witness for C7 at `n = 3`. -/
theorem generation_returns_exactly_n_witness :
    (0 : ℤ) ≤ 3 ∧
    (((generate_user_sessions 3 constUUIDs constDraws).length : ℤ) = 3 ∧
      ((3 : ℤ) = 0 → generate_user_sessions 3 constUUIDs constDraws = [])) :=
  ⟨by norm_num, generation_returns_exactly_n 3 (by norm_num) constUUIDs constDraws⟩

/-- C2 counterexample: with population size `-1` the generator does not
reject the configuration — `range(-1)` is empty, so it silently returns
an empty sequence, contradicting the claimed `InvalidConfiguration`
rejection. -/
theorem negative_population_silently_empty :
    generate_user_sessions (-1) constUUIDs constDraws = [] := by
  rfl

/-- C2 amended: the constructor and the generator perform no validation;
for every non-positive population size the generation loop body never
runs and the result is the empty sequence, with no error raised. -/
theorem nonpositive_population_yields_empty (n : ℤ) (h : n ≤ 0)
    (uuids : ℕ → String × String) (draws : ℕ → UserDraws) :
    generate_user_sessions n uuids draws = [] := by
  rw [generate_user_sessions, Int.toNat_of_nonpos h]
  rfl

/-- Witness for the amended C2 at `n = -1`. -/
theorem nonpositive_population_yields_empty_witness :
    (-1 : ℤ) ≤ 0 ∧ generate_user_sessions (-1) otherUUIDs constDraws = [] :=
  ⟨by norm_num, nonpositive_population_yields_empty (-1) (by norm_num) otherUUIDs constDraws⟩

/-- C6: every generated record's time-spent is an integer at least 5,
whatever the noise draw and whichever dwell-time bonuses applied. -/
theorem time_spent_at_least_five (n : ℤ)
    (uuids : ℕ → String × String) (draws : ℕ → UserDraws)
    (row : SessionRow) (h : row ∈ generate_user_sessions n uuids draws) :
    5 ≤ row.record.time_spent_seconds := by
  rw [generate_user_sessions] at h
  obtain ⟨i, _, rfl⟩ := List.mem_map.mp h
  exact le_max_left _ _

/-- Witness for C6 on a singleton run. -/
theorem time_spent_at_least_five_witness :
    generate_one_session "user-0" "session-0" zeroDraws
        ∈ generate_user_sessions 1 constUUIDs constDraws ∧
    5 ≤ (generate_one_session "user-0" "session-0" zeroDraws).record.time_spent_seconds := by
  have hmem : generate_one_session "user-0" "session-0" zeroDraws
      ∈ generate_user_sessions 1 constUUIDs constDraws := by
    simp [generate_user_sessions, constUUIDs, constDraws, List.range_succ]
  exact ⟨hmem, time_spent_at_least_five 1 constUUIDs constDraws _ hmem⟩

lemma sessionRating_isSome (ut : UserTests) (conv : Bool) (d : UserDraws) :
    (sessionRating ut conv d).isSome = conv := by
  cases conv <;> simp [sessionRating]

lemma sessionRating_bounds {ut : UserTests} {conv : Bool} {d : UserDraws} {x : ℚ}
    (hx : sessionRating ut conv d = some x) : 1 ≤ x ∧ x ≤ 5 := by
  cases conv
  · simp [sessionRating] at hx
  · rw [sessionRating, if_pos rfl, Option.some_inj] at hx
    subst hx
    apply pyRound1_bounds
    · have h1 := le_max_left (1.0 : ℚ)
        (sessionBaseRating ut d + pyUniform (-1.0) 1.0 d.rating_noise_draw)
      have h2 := le_min (by norm_num : (1.0 : ℚ) ≤ 5.0) h1
      linarith
    · have h1 := min_le_left (5.0 : ℚ)
        (max 1.0 (sessionBaseRating ut d + pyUniform (-1.0) 1.0 d.rating_noise_draw))
      linarith

/-- C4: in every generated record the rating is present exactly when the
conversion flag is true, and a present rating lies in `[1.0, 5.0]`. -/
theorem rating_present_iff_converted (n : ℤ)
    (uuids : ℕ → String × String) (draws : ℕ → UserDraws)
    (row : SessionRow) (h : row ∈ generate_user_sessions n uuids draws) :
    (row.record.rating.isSome ↔ row.record.converted = true) ∧
    ∀ x : ℚ, row.record.rating = some x → 1 ≤ x ∧ x ≤ 5 := by
  rw [generate_user_sessions] at h
  obtain ⟨i, _, rfl⟩ := List.mem_map.mp h
  simp only [generate_one_session]
  constructor
  · rw [sessionRating_isSome]
  · intro x hx
    exact sessionRating_bounds hx

/-! Concrete evaluation of the run on `zeroDraws`, used by the
witnesses: all four variant draws select `"control"`, the demographics
are the youngest bracket on iPhone, the conversion probability is
`0.23 * 1.2 = 0.276`, the zero `random.random()` draw converts, and the
rating is `round(max(1, min(5, 4.0 - 0.3 - 1.0)), 1) = 2.7`. -/

lemma zeroDraws_user_tests :
    sessionUserTests zeroDraws = ⟨"control", "control", "control", "control"⟩ := by
  rfl

lemma zeroDraws_conv_prob : sessionConversionProb zeroDraws = 69/250 := by
  rw [sessionConversionProb, zeroDraws_user_tests,
    show pyChoice age_groups zeroDraws.age_draw = "18-24" from rfl,
    show pyChoice device_types zeroDraws.device_draw = "iPhone" from rfl,
    calc_eq_clamp_preClamp, preClampProb, additiveScore,
    show iconDelta "control" = 0 from rfl,
    show descriptionDelta "control" = 0 from rfl,
    show pricingDelta "control" = 0.08 from rfl,
    show screenshotsDelta "control" = 0 from rfl,
    show ageFactor "18-24" = 1.2 from rfl,
    show deviceFactor "iPhone" = 1.0 from rfl,
    clampProb]
  norm_num [min_def, max_def]

lemma zeroDraws_converted : sessionConverted zeroDraws = true := by
  rw [sessionConverted, zeroDraws_conv_prob]
  simp only [decide_eq_true_eq]
  show (0 : ℚ) < 69/250
  norm_num

lemma zeroDraws_base_rating :
    sessionBaseRating ⟨"control", "control", "control", "control"⟩ zeroDraws
      = 3.7 := by
  simp only [sessionBaseRating, zeroDraws]
  rw [if_neg (by decide : ¬(("control" : String) = "variant_a" ∨
    ("control" : String) = "variant_b"))]
  norm_num [pyUniform]

lemma zeroDraws_prefinal :
    min 5.0 (max 1.0
      (sessionBaseRating ⟨"control", "control", "control", "control"⟩ zeroDraws
        + pyUniform (-1.0) 1.0 zeroDraws.rating_noise_draw)) = 27/10 := by
  rw [zeroDraws_base_rating, show zeroDraws.rating_noise_draw = 0 from rfl]
  norm_num [pyUniform, min_def, max_def]

lemma pyRound1_value : pyRound1 (27/10) = 27/10 := by
  rw [pyRound1, roundHalfEven,
    show ((10:ℚ) * (27/10)) = 27 by norm_num,
    show ⌊(27:ℚ)⌋ = 27 by norm_num,
    if_pos (by push_cast; norm_num : (27:ℚ) - ((27:ℤ):ℚ) < 1/2)]
  push_cast
  norm_num

lemma zeroDraws_rating :
    (generate_one_session "user-0" "session-0" zeroDraws).record.rating
      = some (27/10) := by
  show sessionRating (sessionUserTests zeroDraws) (sessionConverted zeroDraws) zeroDraws
    = some (27/10)
  rw [zeroDraws_user_tests, zeroDraws_converted, sessionRating, if_pos rfl,
    Option.some_inj, zeroDraws_prefinal]
  exact pyRound1_value

/-- Witness for C4: the singleton run on `zeroDraws` converts and rates
the app `2.7`. -/
theorem rating_present_iff_converted_witness :
    (generate_one_session "user-0" "session-0" zeroDraws
        ∈ generate_user_sessions 1 constUUIDs constDraws) ∧
    ((generate_one_session "user-0" "session-0" zeroDraws).record.rating.isSome
        ↔ (generate_one_session "user-0" "session-0" zeroDraws).record.converted = true) ∧
    (1 ≤ (27/10 : ℚ) ∧ (27/10 : ℚ) ≤ 5) := by
  have hmem : generate_one_session "user-0" "session-0" zeroDraws
      ∈ generate_user_sessions 1 constUUIDs constDraws := by
    simp [generate_user_sessions, constUUIDs, constDraws, List.range_succ]
  have h := rating_present_iff_converted 1 constUUIDs constDraws _ hmem
  exact ⟨hmem, h.1, h.2 (27/10) zeroDraws_rating⟩

/-! ## Determinism across runs -/

/-- The components of a generated row that come from the seeded random
streams: every field except the two unseeded `uuid.uuid4()`
identifiers. -/
def seededFields (row : SessionRow) :
    ℚ × String × String × String × String × String × String × String ×
      String × String × ℤ × Bool × Option ℚ :=
  (row.record.session_date, row.record.app_name, row.record.app_genre,
   row.record.age_group, row.record.device_type, row.record.country,
   row.record.icon_design_variant, row.record.description_variant,
   row.record.pricing_variant, row.record.screenshots_variant,
   row.record.time_spent_seconds, row.record.converted, row.record.rating)

/-- C1 counterexample: two runs with identical configuration and seed
(hence the same seeded draw stream) but fresh `uuid.uuid4()` values —
which the module-level seeding does not control — differ in their
output: the user identifiers are not reproduced, so the sequences are
not byte-identical in every field. -/
theorem generation_not_byte_identical_across_runs :
    generate_user_sessions 1 constUUIDs constDraws
      ≠ generate_user_sessions 1 otherUUIDs constDraws := by
  intro h
  have h2 := congrArg (List.map (fun r => r.record.user_id)) h
  simp [generate_user_sessions, generate_one_session, constUUIDs, otherUUIDs,
    List.range_succ] at h2

/-- C1 amended: with the same seeded draw stream, two runs agree on
every field of every record except the `uuid`-derived `user_id` and
`session_id`: demographics, variant assignments, timestamps, conversion
flags, time-spent and ratings are all reproduced. -/
theorem generation_deterministic_modulo_ids (n : ℤ)
    (uuids1 uuids2 : ℕ → String × String) (draws : ℕ → UserDraws) :
    (generate_user_sessions n uuids1 draws).map seededFields
      = (generate_user_sessions n uuids2 draws).map seededFields := by
  simp only [generate_user_sessions, List.map_map]
  apply List.map_congr_left
  intro i _
  rfl

/-! ## Summary aggregation claims -/

lemma sum_indicator_eq_count {β : Type} [DecidableEq β] (b : β) (ks : List β) :
    (ks.map fun k => if b = k then (1:ℕ) else 0).sum = ks.count b := by
  induction ks with
  | nil => simp
  | cons k t ih =>
    rw [List.map_cons, List.sum_cons, ih, List.count_cons]
    by_cases h : b = k
    · simp [h, Nat.add_comm]
    · simp [h, Ne.symm h]

lemma sum_filter_length_partition {α β : Type} [DecidableEq β] (f : α → β)
    (ks : List β) (hnd : ks.Nodup) :
    ∀ l : List α, (∀ x ∈ l, f x ∈ ks) →
      (ks.map fun k => (l.filter fun x => f x = k).length).sum = l.length := by
  intro l
  induction l with
  | nil => simp
  | cons a t ih =>
    intro hcov
    have hcovt : ∀ x ∈ t, f x ∈ ks := fun x hx => hcov x (List.mem_cons_of_mem a hx)
    have ha : f a ∈ ks := hcov a (List.mem_cons_self a t)
    have hsplit : ∀ k : β, ((a :: t).filter fun x => f x = k).length
        = (t.filter fun x => f x = k).length + (if f a = k then 1 else 0) := by
      intro k
      rw [List.filter_cons]
      by_cases h : f a = k
      · simp [h, Nat.add_comm]
      · simp [h]
    simp only [hsplit]
    rw [List.sum_map_add, ih hcovt, sum_indicator_eq_count,
      List.count_eq_one_of_mem hnd ha, List.length_cons]

lemma groupSummary_map_total (tn : String) (col : SessionRecord → String)
    (recs : List SessionRecord) :
    (groupSummary tn col recs).map SummaryRow.total_users
      = ((recs.map col).dedup).map
          (fun k => (recs.filter fun x => col x = k).length) := by
  simp only [groupSummary, List.map_map]
  exact List.map_congr_left fun k _ => rfl

lemma groupSummary_map_conversions (tn : String) (col : SessionRecord → String)
    (recs : List SessionRecord) :
    (groupSummary tn col recs).map SummaryRow.conversions
      = ((recs.map col).dedup).map
          (fun k => ((recs.filter fun s => s.converted).filter
              fun x => col x = k).length) := by
  simp only [groupSummary, List.map_map]
  apply List.map_congr_left
  intro k _
  show ((recs.filter fun s => col s = k).filter fun s => s.converted).length
    = ((recs.filter fun s => s.converted).filter fun x => col x = k).length
  rw [List.filter_comm]

lemma groupSummary_map_variant_key (tn : String) (col : SessionRecord → String)
    (recs : List SessionRecord) :
    (groupSummary tn col recs).map SummaryRow.variant_key = (recs.map col).dedup := by
  simp only [groupSummary, List.map_map]
  exact (List.map_congr_left fun k _ => rfl).trans (List.map_id _)

/-- C8: the summary rows of one test partition the sessions: the
per-variant user counts sum to the population size, the per-variant
conversion counts sum to the overall number of converted sessions, and
a variant key never assigned in the data yields no row at all. -/
theorem summary_rows_partition (recs : List SessionRecord)
    (tn : String) (col : SessionRecord → String)
    (hmem : (tn, col) ∈ summary_tests) :
    ((groupSummary tn col recs).map SummaryRow.total_users).sum = recs.length ∧
    ((groupSummary tn col recs).map SummaryRow.conversions).sum
      = (recs.filter fun s => s.converted).length ∧
    ∀ k : String, k ∉ recs.map col →
      k ∉ (groupSummary tn col recs).map SummaryRow.variant_key := by
  refine ⟨?_, ?_, ?_⟩
  · rw [groupSummary_map_total]
    exact sum_filter_length_partition col _ (List.nodup_dedup _) recs
      (fun x hx => List.mem_dedup.mpr (List.mem_map_of_mem col hx))
  · rw [groupSummary_map_conversions]
    exact sum_filter_length_partition col _ (List.nodup_dedup _)
      (recs.filter fun s => s.converted)
      (fun x hx => List.mem_dedup.mpr
        (List.mem_map_of_mem col (List.mem_of_mem_filter hx)))
  · intro k hk
    rw [groupSummary_map_variant_key, List.mem_dedup]
    exact hk

/-- A fully concrete non-converted session row, used by witnesses. -/
def wrec : SessionRecord :=
  { user_id := "u0", session_date := 0, app_name := "Acme App"
    app_genre := "Games", age_group := "18-24", device_type := "iPhone"
    country := "US", icon_design_variant := "control"
    description_variant := "control", pricing_variant := "control"
    screenshots_variant := "control", time_spent_seconds := 5
    converted := false, rating := none }

/-- Witness for C8 on a one-session data set. -/
theorem summary_rows_partition_witness :
    (("App Icon Design Test", SessionRecord.icon_design_variant) ∈ summary_tests) ∧
    ("variant_b" ∉ [wrec].map SessionRecord.icon_design_variant) ∧
    ((groupSummary "App Icon Design Test" SessionRecord.icon_design_variant [wrec]).map
        SummaryRow.total_users).sum = [wrec].length ∧
    ((groupSummary "App Icon Design Test" SessionRecord.icon_design_variant [wrec]).map
        SummaryRow.conversions).sum
      = ([wrec].filter fun s => s.converted).length ∧
    "variant_b" ∉ (groupSummary "App Icon Design Test"
        SessionRecord.icon_design_variant [wrec]).map SummaryRow.variant_key := by
  have hmem : ("App Icon Design Test", SessionRecord.icon_design_variant)
      ∈ summary_tests := by
    simp only [summary_tests]
    exact List.mem_cons_self _ _
  have hnk : "variant_b" ∉ [wrec].map SessionRecord.icon_design_variant := by
    simp [wrec]
  have h := summary_rows_partition [wrec] "App Icon Design Test"
    SessionRecord.icon_design_variant hmem
  exact ⟨hmem, hnk, h.1, h.2.1, h.2.2 "variant_b" hnk⟩

/-- C9: for the summary row of any group, the mean-rating field is the
explicit absent value when the group has no rated record — never a
division fault, never a spurious zero — and otherwise it is the mean of
exactly the present ratings of the group. -/
theorem avg_rating_absent_on_unrated (tn : String) (col : SessionRecord → String)
    (recs : List SessionRecord) (k : String)
    (hk : summaryRowFor tn col recs k ∈ groupSummary tn col recs) :
    (((recs.filter fun s => col s = k).filterMap SessionRecord.rating) = []
        → (summaryRowFor tn col recs k).avg_rating = none) ∧
    (((recs.filter fun s => col s = k).filterMap SessionRecord.rating) ≠ []
        → (summaryRowFor tn col recs k).avg_rating
            = some ((((recs.filter fun s => col s = k).filterMap
                  SessionRecord.rating).sum)
                / (((recs.filter fun s => col s = k).filterMap
                  SessionRecord.rating).length))) := by
  constructor
  · intro hemp
    show (if ((recs.filter fun s => col s = k).filterMap SessionRecord.rating).length = 0
        then none else some _) = none
    rw [if_pos (by rw [hemp]; rfl)]
  · intro hne
    show (if ((recs.filter fun s => col s = k).filterMap SessionRecord.rating).length = 0
        then none else some _) = some _
    rw [if_neg (fun h0 => hne (List.length_eq_zero.mp h0))]

/-- Witness for C9: a single unconverted session gives a group with no
rated record and an absent mean rating. -/
theorem avg_rating_absent_on_unrated_witness :
    (summaryRowFor "Pricing Strategy Test" SessionRecord.pricing_variant [wrec] "control"
        ∈ groupSummary "Pricing Strategy Test" SessionRecord.pricing_variant [wrec]) ∧
    (([wrec].filter fun s => SessionRecord.pricing_variant s = "control").filterMap
        SessionRecord.rating) = [] ∧
    (summaryRowFor "Pricing Strategy Test" SessionRecord.pricing_variant [wrec]
        "control").avg_rating = none := by
  have hk : summaryRowFor "Pricing Strategy Test" SessionRecord.pricing_variant [wrec]
      "control" ∈ groupSummary "Pricing Strategy Test" SessionRecord.pricing_variant
        [wrec] := by
    simp [groupSummary, wrec]
  have hemp : (([wrec].filter fun s => SessionRecord.pricing_variant s = "control").filterMap
      SessionRecord.rating) = [] := by
    simp [wrec]
  exact ⟨hk, hemp,
    (avg_rating_absent_on_unrated "Pricing Strategy Test" SessionRecord.pricing_variant
      [wrec] "control" hk).1 hemp⟩

end ABSim
